import Mathlib

/-!
# Verification of the iMessage MCP core (db.py / tools.py / sender.py)

Shallow embedding of the message-store adapter, the watcher cursor, and the
AppleScript automation layer, with theorems settling the frozen claims.

Conventions of the embedding:
* Python strings are modelled as `String` or `List Char` (for the character
  level escaping code).
* Machine integers of SQLite rowids / timestamps are modelled as `Int`
  (SQLite integers are 64-bit, no overflow occurs at the handled sizes).
* Python `float` arithmetic of the timestamp codec is modelled over `ℚ`;
  `datetime`'s microsecond resolution is modelled by quantizing to 10⁻⁶ s.
* Fallible store access is modelled by `Except String`, errors carrying the
  exception text.
* SQL queries are modelled on explicit table lists: `WHERE` is `filter`,
  `ORDER BY` is `insertionSort` by the order key, `LIMIT` is `take`.
-/

namespace IMessage

/-! ## Timestamp codec (db.py: `MAC_EPOCH`, `mac_timestamp_to_iso`, since-filter)

`mac_timestamp_to_iso` computes `seconds = ns / 1e9`, `unix = seconds + MAC_EPOCH`
and renders `datetime.fromtimestamp(unix)` as an ISO string.  The calendar value
carried by that ISO string is modelled as the underlying unix-seconds rational,
quantized to `datetime`'s microsecond resolution.  `MAC_EPOCH` is
`datetime(2001,1,1).timestamp()`, a value depending on the local timezone, so it
is kept as a parameter `epoch : ℚ`. -/

/-- Python `int(x)`: truncation toward zero. -/
def pyTrunc (q : ℚ) : ℤ := if 0 ≤ q then ⌊q⌋ else ⌈q⌉

/-- `datetime` stores at most microsecond precision: quantize unix seconds to
the nearest microsecond (models `datetime.fromtimestamp` keeping µs). -/
def quantMicro (u : ℚ) : ℚ := (round (u * 1000000) : ℤ) / 1000000

/-- Numeric content of `mac_timestamp_to_iso` on a non-null nanosecond offset:
`ns / 1e9 + MAC_EPOCH`, rendered at `datetime` microsecond resolution
(db.py lines 27–33). -/
def macDecode (epoch : ℚ) (n : ℤ) : ℚ := quantMicro ((n : ℚ) / 1000000000 + epoch)

/-- `mac_timestamp_to_iso`: `None` maps to `None`, otherwise decode. -/
def mac_timestamp_to_iso (epoch : ℚ) : Option ℤ → Option ℚ :=
  Option.map (macDecode epoch)

/-- Inverse transform used inline by the since-filter of `get_messages`
(db.py lines 125–129): `int((since_dt.timestamp() - MAC_EPOCH) * 1e9)`,
where `u` is the unix-seconds value of the parsed ISO input. -/
def sinceToMac (epoch : ℚ) (u : ℚ) : ℤ := pyTrunc ((u - epoch) * 1000000000)

/-- Truncation toward zero of an integer plus a small fractional part stays
within the bound of the fractional part plus one. -/
lemma pyTrunc_intCast_add_abs_le (n : ℤ) (d : ℚ) (B : ℤ)
    (hd : |d| ≤ (B : ℚ)) : |pyTrunc ((n : ℚ) + d) - n| ≤ B := by
  have hdl : -(B : ℚ) ≤ d := (abs_le.mp hd).1
  have hdu : d ≤ (B : ℚ) := (abs_le.mp hd).2
  unfold pyTrunc
  split
  · rw [add_comm, Int.floor_add_int]
    have h1 : -B ≤ ⌊d⌋ := Int.le_floor.mpr (by exact_mod_cast hdl)
    have h2 : ⌊d⌋ ≤ B := by exact_mod_cast le_trans (Int.floor_le d) hdu
    rw [abs_le]
    constructor <;> omega
  · rw [add_comm, Int.ceil_add_int]
    have h1 : -B ≤ ⌈d⌉ := by exact_mod_cast le_trans hdl (Int.le_ceil d)
    have h2 : ⌈d⌉ ≤ B := Int.ceil_le.mpr (by exact_mod_cast hdu)
    rw [abs_le]
    constructor <;> omega

/-- **C9.** For every nanosecond offset `n`, decoding (`mac_timestamp_to_iso`:
`n / 1e9 + MAC_EPOCH` at microsecond calendar resolution) and then applying the
inverse transform of the since-filter (`subtract MAC_EPOCH, multiply by 1e9,
truncate to int`) recovers `n` within second-level precision: the error is
below 10⁹ nanoseconds (it is in fact at most 500 ns, the microsecond
quantization of `datetime`). -/
theorem timestamp_roundtrip_second_precision (epoch : ℚ) (n : ℤ) :
    |sinceToMac epoch (macDecode epoch n) - n| < 1000000000 := by
  set x : ℚ := (n : ℚ) / 1000000000 + epoch with hx
  set r : ℤ := round (x * 1000000) with hr
  set d : ℚ := ((r : ℚ) - x * 1000000) * 1000 with hd
  have key : (macDecode epoch n - epoch) * 1000000000 = (n : ℚ) + d := by
    rw [hd, macDecode, quantMicro, ← hx, ← hr]
    field_simp
    ring
  have hδ : |d| ≤ (500 : ℚ) := by
    rw [hd, abs_mul]
    have h1 : |(r : ℚ) - x * 1000000| ≤ 1 / 2 := by
      rw [hr, abs_sub_comm]
      exact abs_sub_round _
    have h2 : |(1000 : ℚ)| = 1000 := by norm_num
    rw [h2]
    calc |(r : ℚ) - x * 1000000| * 1000 ≤ (1 / 2) * 1000 :=
          mul_le_mul_of_nonneg_right h1 (by norm_num)
      _ = 500 := by norm_num
  have h := pyTrunc_intCast_add_abs_le n d 500 hδ
  have heq : sinceToMac epoch (macDecode epoch n) = pyTrunc ((n : ℚ) + d) := by
    rw [sinceToMac, key]
  rw [heq]
  exact lt_of_le_of_lt h (by norm_num)

/-! ## AppleScript string escaping (sender.py: `escape_applescript_string`)

`text.replace("\\", "\\\\").replace('"', '\\"')` — both needles are single
characters, so Python's `str.replace` is a per-character expansion. -/

/-- Python `str.replace` for a single-character needle: every occurrence of
`needle` is replaced by `repl`. -/
def pyReplaceChar (needle : Char) (repl : List Char) : List Char → List Char
  | [] => []
  | c :: cs => (if c = needle then repl else [c]) ++ pyReplaceChar needle repl cs

/-- `escape_applescript_string` (sender.py lines 14–16): backslash is doubled
first, then every double-quote receives a preceding backslash. -/
def escape_applescript_string (s : List Char) : List Char :=
  pyReplaceChar '"' ['\\', '"'] (pyReplaceChar '\\' ['\\', '\\'] s)

/-- Structural safety check: scanning with the previous character, every
double-quote is immediately preceded by a backslash. -/
def quotesEscapedFrom (prev : Option Char) : List Char → Bool
  | [] => true
  | c :: rest =>
    (if c = '"' then decide (prev = some '\\') else true) && quotesEscapedFrom (some c) rest

lemma pyReplaceChar_append (needle : Char) (repl : List Char) (a b : List Char) :
    pyReplaceChar needle repl (a ++ b) =
      pyReplaceChar needle repl a ++ pyReplaceChar needle repl b := by
  induction a with
  | nil => rfl
  | cons c cs ih => simp [pyReplaceChar, ih]

/-- One-step expansion of the escaper. -/
def escChar (c : Char) : List Char :=
  if c = '\\' then ['\\', '\\'] else if c = '"' then ['\\', '"'] else [c]

lemma escape_cons (c : Char) (cs : List Char) :
    escape_applescript_string (c :: cs) = escChar c ++ escape_applescript_string cs := by
  unfold escape_applescript_string escChar
  by_cases h1 : c = '\\'
  · subst h1
    simp [pyReplaceChar]
  · by_cases h2 : c = '"'
    · subst h2
      simp [pyReplaceChar, h1]
    · simp [pyReplaceChar, h1, h2]

lemma quotesEscapedFrom_escape (s : List Char) :
    ∀ prev, quotesEscapedFrom prev (escape_applescript_string s) = true := by
  induction s with
  | nil => intro prev; rfl
  | cons c cs ih =>
    intro prev
    rw [escape_cons]
    unfold escChar
    by_cases h1 : c = '\\'
    · subst h1
      simp only [if_pos rfl, List.cons_append, List.nil_append]
      simp [quotesEscapedFrom, ih]
    · by_cases h2 : c = '"'
      · subst h2
        simp only [if_neg h1, if_pos rfl, List.cons_append, List.nil_append]
        simp [quotesEscapedFrom, ih]
      · simp only [if_neg h1, if_neg h2, List.cons_append, List.nil_append]
        simp [quotesEscapedFrom, h2, ih]

/-- **C2.** `escape_applescript_string` replaces backslash with double-backslash
first and double-quote with backslash-quote second (first conjunct: the
function literally is that composition, in that order), and consequently every
double-quote in the output is immediately preceded by a backslash, so the value
cannot terminate a surrounding AppleScript string literal. -/
theorem escape_applescript_string_safe (s : List Char) :
    escape_applescript_string s =
      pyReplaceChar '"' ['\\', '"'] (pyReplaceChar '\\' ['\\', '\\'] s) ∧
    quotesEscapedFrom none (escape_applescript_string s) = true :=
  ⟨rfl, quotesEscapedFrom_escape s none⟩

/-! ## Reaction decoding (db.py: `IMessageDatabase._row_to_message`, lines 146–159)

```
associated_type = row["associated_message_type"] or 0
is_reaction = associated_type >= 2000
...
if is_reaction:
    is_reaction_removal = associated_type >= 3000
    type_offset = (associated_type % 1000)
    reaction_map = {0: "love", 1: "like", ...}
    reaction_type = reaction_map.get(type_offset)
```
Python `%` with positive modulus agrees with `Int.emod` (Lean's `%`). -/

structure ReactionInfo where
  is_reaction : Bool
  reaction_type : Option String
  is_reaction_removal : Bool
  deriving DecidableEq

/-- The fixed six-entry reaction lookup table; `dict.get` yields `none` off the
table. -/
def reaction_map (offset : ℤ) : Option String :=
  if offset = 0 then some "love"
  else if offset = 1 then some "like"
  else if offset = 2 then some "dislike"
  else if offset = 3 then some "laugh"
  else if offset = 4 then some "emphasize"
  else if offset = 5 then some "question"
  else none

/-- Reaction classification of `_row_to_message` for an association code. -/
def decode_reaction (code : ℤ) : ReactionInfo :=
  if 2000 ≤ code then
    { is_reaction := true
      is_reaction_removal := decide (3000 ≤ code)
      reaction_type := reaction_map (code % 1000) }
  else
    { is_reaction := false, reaction_type := none, is_reaction_removal := false }

/-- **C3 counterexample.** The claim says every code at or above 4000 yields a
plain message (`isReaction = false`); the code classifies 4000 as a reaction
removal of kind `love`, because `_row_to_message` tests `>= 2000` and `>= 3000`
with no upper bound. -/
theorem decode_reaction_4000_is_reaction :
    (decode_reaction 4000).is_reaction = true ∧
    (decode_reaction 4000).is_reaction_removal = true ∧
    (decode_reaction 4000).reaction_type = some "love" := by
  refine ⟨rfl, rfl, ?_⟩
  rfl

/-- **C3 (amended).** Codes in `[2000, 3000)` yield an added reaction, codes at
or above `3000` (with no upper bound — including 4000 and beyond) yield a
removed reaction, and codes below `2000` (including 0 and negatives) yield a
plain message; in the reaction cases the kind is `code % 1000` mapped through
the six-entry table `{0: love, 1: like, 2: dislike, 3: laugh, 4: emphasize,
5: question}`, any other offset yielding a `none` kind, and the function is
total (no error is raised). -/
theorem decode_reaction_classification (code : ℤ) :
    (code < 2000 →
      decode_reaction code =
        { is_reaction := false, reaction_type := none, is_reaction_removal := false }) ∧
    (2000 ≤ code → code < 3000 →
      (decode_reaction code).is_reaction = true ∧
      (decode_reaction code).is_reaction_removal = false ∧
      (decode_reaction code).reaction_type = reaction_map (code % 1000)) ∧
    (3000 ≤ code →
      (decode_reaction code).is_reaction = true ∧
      (decode_reaction code).is_reaction_removal = true ∧
      (decode_reaction code).reaction_type = reaction_map (code % 1000)) := by
  refine ⟨?_, ?_, ?_⟩
  · intro h
    unfold decode_reaction
    rw [if_neg (by omega)]
  · intro h1 h2
    unfold decode_reaction
    rw [if_pos h1]
    refine ⟨rfl, ?_, rfl⟩
    simp only [decide_eq_false_iff_not]
    omega
  · intro h
    unfold decode_reaction
    rw [if_pos (by omega)]
    refine ⟨rfl, ?_, rfl⟩
    simp only [decide_eq_true_eq]
    omega

/-- **C3 witness.** Instantiates `decode_reaction_classification` at the spec's
sample codes 0, 2003, 3001 and 2099, discharging the range hypotheses. -/
theorem decode_reaction_classification_witness :
    decode_reaction 0 =
      { is_reaction := false, reaction_type := none, is_reaction_removal := false } ∧
    (decode_reaction 2003).reaction_type = some "laugh" ∧
    (decode_reaction 3001).is_reaction_removal = true ∧
    (decode_reaction 2099).reaction_type = none := by
  refine ⟨(decode_reaction_classification 0).1 (by norm_num), ?_, ?_, ?_⟩
  · have h := ((decode_reaction_classification 2003).2.1 (by norm_num) (by norm_num)).2.2
    rw [h]
    rfl
  · exact ((decode_reaction_classification 3001).2.2 (by norm_num)).2.1
  · have h := ((decode_reaction_classification 2099).2.1 (by norm_num) (by norm_num)).2.2
    rw [h]
    rfl

/-! ## SQLite `LIKE` semantics

`get_messages` filters with `m.text LIKE ?` bound to `f"%{search}%"`.  SQLite's
default `LIKE` treats `%` as "any sequence of zero or more characters", `_` as
"any single character", and compares characters case-insensitively for the
ASCII range only.  The matcher is written with a fuel argument (the recursion
is on the combined length of pattern and text, which the fuel strictly
dominates); the lemmas `sqliteLike_nil`, `sqliteLike_cons_nil` and
`sqliteLike_cons_cons` below show it satisfies the standard `LIKE` recursion. -/

/-- ASCII lower-casing, the folding SQLite's default `LIKE` applies. -/
def asciiLower (c : Char) : Char :=
  if 'A' ≤ c ∧ c ≤ 'Z' then Char.ofNat (c.toNat + 32) else c

/-- Character comparison of SQLite `LIKE`: equal up to ASCII case. -/
def likeCharEq (p c : Char) : Bool := asciiLower p = asciiLower c

def likeAux : ℕ → List Char → List Char → Bool
  | 0, _, _ => false
  | _ + 1, [], t => t.isEmpty
  | f + 1, p :: ps, [] => decide (p = '%') && likeAux f ps []
  | f + 1, p :: ps, c :: ts =>
    if p = '%' then likeAux f ps (c :: ts) || likeAux f (p :: ps) ts
    else if p = '_' then likeAux f ps ts
    else likeCharEq p c && likeAux f ps ts

/-- SQLite `LIKE pattern` applied to `text`. -/
def sqliteLike (ps t : List Char) : Bool := likeAux (ps.length + t.length + 1) ps t

lemma likeAux_fuel_invariant :
    ∀ f f' ps t, ps.length + t.length < f → ps.length + t.length < f' →
      likeAux f ps t = likeAux f' ps t := by
  intro f
  induction f with
  | zero => intro f' ps t h _; omega
  | succ g ih =>
    intro f' ps t h h'
    match f', h' with
    | g' + 1, h' =>
      match ps with
      | [] => rfl
      | p :: ps =>
        simp only [List.length_cons] at h h'
        match t with
        | [] =>
          show (decide (p = '%') && likeAux g ps []) = (decide (p = '%') && likeAux g' ps [])
          rw [ih g' ps [] (by simp only [List.length_nil] at h ⊢; omega)
            (by simp only [List.length_nil] at h' ⊢; omega)]
        | c :: ts =>
          simp only [List.length_cons] at h h'
          show (if p = '%' then likeAux g ps (c :: ts) || likeAux g (p :: ps) ts
                else if p = '_' then likeAux g ps ts
                else likeCharEq p c && likeAux g ps ts) =
              (if p = '%' then likeAux g' ps (c :: ts) || likeAux g' (p :: ps) ts
                else if p = '_' then likeAux g' ps ts
                else likeCharEq p c && likeAux g' ps ts)
          by_cases hp : p = '%'
          · rw [if_pos hp, if_pos hp,
              ih g' ps (c :: ts) (by simp only [List.length_cons]; omega)
                (by simp only [List.length_cons]; omega),
              ih g' (p :: ps) ts (by simp only [List.length_cons]; omega)
                (by simp only [List.length_cons]; omega)]
          · by_cases hu : p = '_'
            · rw [if_neg hp, if_neg hp, if_pos hu, if_pos hu,
                ih g' ps ts (by omega) (by omega)]
            · rw [if_neg hp, if_neg hp, if_neg hu, if_neg hu,
                ih g' ps ts (by omega) (by omega)]

/-- Empty pattern matches exactly the empty text. -/
lemma sqliteLike_nil (t : List Char) : sqliteLike [] t = t.isEmpty := rfl

/-- Against empty text, only a pattern of `%`s matches. -/
lemma sqliteLike_cons_nil (p : Char) (ps : List Char) :
    sqliteLike (p :: ps) [] = (decide (p = '%') && sqliteLike ps []) := rfl

/-- The standard `LIKE` step: `%` matches zero or more characters, `_` exactly
one, anything else one character up to ASCII case. -/
lemma likeAux_eq_sqliteLike (f : ℕ) (ps t : List Char) (h : ps.length + t.length < f) :
    likeAux f ps t = sqliteLike ps t :=
  likeAux_fuel_invariant f (ps.length + t.length + 1) ps t h (by omega)

lemma sqliteLike_cons_cons (p : Char) (ps : List Char) (c : Char) (ts : List Char) :
    sqliteLike (p :: ps) (c :: ts) =
      if p = '%' then sqliteLike ps (c :: ts) || sqliteLike (p :: ps) ts
      else if p = '_' then sqliteLike ps ts
      else likeCharEq p c && sqliteLike ps ts := by
  have step : sqliteLike (p :: ps) (c :: ts) =
      (if p = '%' then likeAux (ps.length + 1 + (ts.length + 1)) ps (c :: ts) ||
          likeAux (ps.length + 1 + (ts.length + 1)) (p :: ps) ts
        else if p = '_' then likeAux (ps.length + 1 + (ts.length + 1)) ps ts
        else likeCharEq p c && likeAux (ps.length + 1 + (ts.length + 1)) ps ts) := rfl
  rw [step,
    likeAux_eq_sqliteLike (ps.length + 1 + (ts.length + 1)) ps (c :: ts)
      (by simp only [List.length_cons]; omega),
    likeAux_eq_sqliteLike (ps.length + 1 + (ts.length + 1)) (p :: ps) ts
      (by simp only [List.length_cons]; omega),
    likeAux_eq_sqliteLike (ps.length + 1 + (ts.length + 1)) ps ts (by omega)]

/-- The bound parameter `f"%{search}%"` of the search filter. -/
def likePattern (s : String) : List Char := '%' :: (s.data ++ ['%'])

/-! ## Message rows and `_row_to_message`

A `MsgRow` is one row of the `SELECT` shared by `get_messages` and
`get_messages_since_id` (message LEFT JOIN handle / chat_message_join / chat).
Nullable SQL columns are `Option`; `m.date` is modelled non-null (the schema
defaults it to 0). -/

structure MsgRow where
  id : ℤ
  guid : String
  text : Option String
  date : ℤ
  is_from_me : Bool
  is_read : Bool
  is_sent : Bool
  is_delivered : Bool
  has_attachments : Bool
  associated_message_guid : Option String
  associated_message_type : Option ℤ
  sender : Option String
  chat_identifier : Option String
  chat_name : Option String
  group_id : Option String
  deriving DecidableEq

/-- Python truthiness of an optional string (`bool(row["group_id"])`,
`if chat_id:`, …): `None` and `""` are falsy. -/
def pyStrTruthy : Option String → Bool
  | none => false
  | some s => decide (s ≠ "")

/-- The message dictionary built by `_row_to_message` (db.py lines 161–179). -/
structure Message where
  id : ℤ
  guid : String
  text : Option String
  timestamp : Option ℚ
  is_from_me : Bool
  is_read : Bool
  is_sent : Bool
  is_delivered : Bool
  has_attachments : Bool
  sender : Option String
  chat_identifier : Option String
  chat_name : Option String
  is_group : Bool
  is_reaction : Bool
  reaction_type : Option String
  is_reaction_removal : Bool
  associated_message_guid : Option String
  deriving DecidableEq

/-- `_row_to_message`: row conversion, decoding the timestamp and the
association code (`associated_type = row[...] or 0`). -/
def row_to_message (epoch : ℚ) (r : MsgRow) : Message :=
  let rx := decode_reaction (r.associated_message_type.getD 0)
  { id := r.id
    guid := r.guid
    text := r.text
    timestamp := mac_timestamp_to_iso epoch (some r.date)
    is_from_me := r.is_from_me
    is_read := r.is_read
    is_sent := r.is_sent
    is_delivered := r.is_delivered
    has_attachments := r.has_attachments
    sender := r.sender
    chat_identifier := r.chat_identifier
    chat_name := r.chat_name
    is_group := pyStrTruthy r.group_id
    is_reaction := rx.is_reaction
    reaction_type := rx.reaction_type
    is_reaction_removal := rx.is_reaction_removal
    associated_message_guid := r.associated_message_guid }

/-! ## `get_messages` (db.py lines 73–144) -/

/-- `ORDER BY m.date DESC`: `a` may come before `b` when its date is at least
`b`'s. -/
def msgDateDesc (a b : MsgRow) : Prop := b.date ≤ a.date

instance : DecidableRel msgDateDesc := fun a b => inferInstanceAs (Decidable (b.date ≤ a.date))

instance : IsTotal MsgRow msgDateDesc := ⟨fun a b => le_total b.date a.date⟩

instance : IsTrans MsgRow msgDateDesc := ⟨fun _ _ _ h1 h2 => le_trans h2 h1⟩

/-- `ORDER BY m.rowid ASC` for `get_messages_since_id`. -/
def msgIdAsc (a b : MsgRow) : Prop := a.id ≤ b.id

instance : DecidableRel msgIdAsc := fun a b => inferInstanceAs (Decidable (a.id ≤ b.id))

instance : IsTotal MsgRow msgIdAsc := ⟨fun a b => le_total a.id b.id⟩

instance : IsTrans MsgRow msgIdAsc := ⟨fun _ _ _ h1 h2 => le_trans h1 h2⟩

/-- The search condition `m.text LIKE '%' || search || '%'` (`NULL` text never
matches). -/
def textMatchesLike (s : String) (r : MsgRow) : Bool :=
  match r.text with
  | some t => sqliteLike (likePattern s) t.data
  | none => false

/-- Conjunctive `WHERE` clause of `get_messages`, in source order: chat
identifier equality, exclusive lower bound on the raw date (via the inverse
timestamp transform), `LIKE` search, unread-only restriction.  A filter is
only added when its Python argument is truthy. -/
def msgKeep (epoch : ℚ) (chat_id : Option String) (since : Option ℚ)
    (search : Option String) (unread_only : Bool) (m : MsgRow) : Bool :=
  (if pyStrTruthy chat_id then decide (m.chat_identifier = chat_id) else true) &&
  (match since with
   | some u => decide (sinceToMac epoch u < m.date)
   | none => true) &&
  (match search with
   | some s => if s = "" then true else textMatchesLike s m
   | none => true) &&
  (if unread_only then (!m.is_read && !m.is_from_me) else true)

/-- `IMessageDatabase.get_messages`: filter, order by raw date descending,
limit, convert rows.  `since : Option ℚ` carries the unix-seconds value of the
caller's parsed ISO string.  Note the source has **no** `chronological`
parameter: the ordering is always `m.date DESC`. -/
def get_messages (epoch : ℚ) (store : List MsgRow) (limit : ℕ)
    (chat_id : Option String) (since : Option ℚ) (search : Option String)
    (unread_only : Bool) : List Message :=
  ((((store.filter (msgKeep epoch chat_id since search unread_only)).insertionSort
      msgDateDesc).take limit).map (row_to_message epoch))

/-- Concrete store row whose text is `"HELLO"` (upper case). -/
def hRow : MsgRow :=
  { id := 1, guid := "g1", text := some "HELLO", date := 0, is_from_me := false,
    is_read := false, is_sent := true, is_delivered := true, has_attachments := false,
    associated_message_guid := none, associated_message_type := none,
    sender := some "alice", chat_identifier := some "chat1", chat_name := none,
    group_id := none }

/-- **C6 counterexample.** Searching for `"hello"` keeps the message whose text
is `"HELLO"`, although `"hello"` is not a case-sensitive substring of
`"HELLO"`: the filter is SQLite `LIKE`, which is ASCII-case-insensitive, not
case-sensitive substring containment. -/
theorem get_messages_search_not_case_sensitive :
    get_messages 0 [hRow] 50 none none (some "hello") false = [row_to_message 0 hRow] ∧
    ¬ ("hello".data <:+: "HELLO".data) := by
  constructor
  · rfl
  · decide

/-- **C6 (amended).** With a non-empty search argument (and no other filter),
`get_messages` keeps exactly the messages whose non-null text matches the
SQLite pattern `'%' + search + '%'` — substring matching that is
case-insensitive on ASCII letters and in which `%` and `_` occurring in the
search string act as wildcards — each returned as its converted record; the
hypothesis `store.length ≤ limit` keeps the `LIMIT` clause from cutting the
result. -/
theorem get_messages_search_filter_like (epoch : ℚ) (store : List MsgRow) (limit : ℕ)
    (s : String) (hs : s ≠ "") (hlen : store.length ≤ limit) (m : Message) :
    m ∈ get_messages epoch store limit none none (some s) false ↔
      ∃ r, r ∈ store ∧ textMatchesLike s r = true ∧ m = row_to_message epoch r := by
  unfold get_messages
  have hkeep : ∀ r ∈ store, msgKeep epoch none none (some s) false r = textMatchesLike s r := by
    intro r _
    unfold msgKeep pyStrTruthy
    simp [hs]
  rw [List.filter_congr hkeep]
  have hlen2 : ((store.filter (textMatchesLike s)).insertionSort msgDateDesc).length ≤ limit := by
    rw [List.length_insertionSort]
    exact le_trans (List.length_filter_le _ _) hlen
  rw [List.take_of_length_le hlen2]
  simp only [List.mem_map, List.mem_insertionSort, List.mem_filter]
  constructor
  · rintro ⟨r, ⟨hr1, hr2⟩, hr3⟩
    exact ⟨r, hr1, hr2, hr3.symm⟩
  · rintro ⟨r, hr1, hr2, hr3⟩
    exact ⟨r, ⟨hr1, hr2⟩, hr3.symm⟩

/-- **C6 witness.** The amended theorem at the concrete store `[hRow]` with
search `"hello"`: the `"HELLO"` message is in the result. -/
theorem get_messages_search_filter_like_witness :
    row_to_message 0 hRow ∈ get_messages 0 [hRow] 50 none none (some "hello") false :=
  (get_messages_search_filter_like 0 [hRow] 50 "hello" (by decide) (by decide)
      (row_to_message 0 hRow)).mpr
    ⟨hRow, List.mem_singleton.mpr rfl, by decide, rfl⟩

/-! ## `read_messages` (tools.py lines 132–163)

The tool calls
`db.get_messages(limit=…, chat_id=…, since=…, search=…, chronological=…)`
inside its `try` block, but `IMessageDatabase.get_messages` accepts only the
keyword parameters `limit, chat_id, since, search, unread_only`.  Python
therefore raises `TypeError` at call binding (before any database work), the
`except` clause catches it, and the tool returns an error result.  The
keyword-binding step is modelled explicitly. -/

/-- Result record of the read tools. -/
structure MessagesResult where
  count : ℕ
  messages : List Message
  error : Option String
  deriving DecidableEq

/-- Keyword parameters accepted by `IMessageDatabase.get_messages`
(db.py lines 73–80). -/
def get_messages_accepted_keywords : List String :=
  ["limit", "chat_id", "since", "search", "unread_only"]

/-- Keyword arguments passed by `read_messages` (tools.py lines 154–160). -/
def read_messages_passed_keywords : List String :=
  ["limit", "chat_id", "since", "search", "chronological"]

/-- Keywords of the call that the callee does not accept; any such keyword
makes the call raise `TypeError`. -/
def read_messages_unexpected_keywords : List String :=
  read_messages_passed_keywords.filter (fun k => !get_messages_accepted_keywords.contains k)

/-- The `read_messages` tool: keyword binding first (a `TypeError` is caught by
the surrounding `except` and surfaced in `error`), then the store call, whose
own failure is likewise surfaced; on success the filtered messages and their
count are returned.  The `chronological` argument cannot reach the database
layer because `get_messages` has no such parameter. -/
def read_messages (epoch : ℚ) (store : Except String (List MsgRow)) (limit : ℕ)
    (chat_id : Option String) (since : Option ℚ) (search : Option String)
    (chronological : Bool) : MessagesResult :=
  match read_messages_unexpected_keywords with
  | k :: _ =>
    { count := 0, messages := []
      error := some ("get_messages() got an unexpected keyword argument " ++ k) }
  | [] =>
    match store with
    | .error e => { count := 0, messages := [], error := some e }
    | .ok rows =>
      let msgs := get_messages epoch rows limit chat_id since search false
      { count := msgs.length, messages := msgs, error := none }

/-- **C1 (code bug).** Every call of `read_messages` — for either value of
`chronological` and any store — returns an empty message list and a populated
`TypeError` message, instead of the filtered messages: the tool passes
`chronological=` to `IMessageDatabase.get_messages`, which has no such
parameter, so the call raises `TypeError` before touching the store and the
`except` clause converts it into an error result.  (At the database layer the
ordering is always `m.date DESC`; no ascending path exists.) -/
theorem read_messages_always_fails (epoch : ℚ) (store : Except String (List MsgRow))
    (limit : ℕ) (chat_id : Option String) (since : Option ℚ) (search : Option String)
    (chronological : Bool) :
    read_messages epoch store limit chat_id since search chronological =
      { count := 0, messages := []
        error := some "get_messages() got an unexpected keyword argument chronological" } :=
  rfl

/-! ## Watcher primitives (db.py lines 306–360, tools.py lines 414–486)

The watcher cursor is the process-wide `_watcher_cursor : int | None`.  The
fallible store is `Except String (List MsgRow)`: `.error e` models the
database layer raising an exception with text `e`. -/

/-- Python `max(m["id"] for m in messages)` over a non-empty list (the `[]`
case is never reached: the caller guards with `if messages:`). -/
def maxIdOf : List Message → ℤ
  | [] => 0
  | [m] => m.id
  | m :: rest => max m.id (maxIdOf rest)

/-- `SELECT MAX(rowid) FROM message`, with `row[0] or 0` mapping an empty
table's `NULL` to 0 (db.py lines 306–316). -/
def rowsMaxId : List MsgRow → ℤ
  | [] => 0
  | [r] => r.id
  | r :: rest => max r.id (rowsMaxId rest)

/-- `IMessageDatabase.get_latest_message_id`. -/
def get_latest_message_id (store : Except String (List MsgRow)) : Except String ℤ :=
  store.map rowsMaxId

/-- `IMessageDatabase.get_messages_since_id` (db.py lines 318–360):
`WHERE m.rowid > ? ORDER BY m.rowid ASC LIMIT ?`, rows converted by
`_row_to_message`. -/
def get_messages_since_id (epoch : ℚ) (rows : List MsgRow) (since_id : ℤ)
    (limit : ℕ) : List Message :=
  (((rows.filter (fun m => decide (since_id < m.id))).insertionSort msgIdAsc).take
    limit).map (row_to_message epoch)

/-- Result record of the watcher start/stop tools. -/
structure WatcherResult where
  watching : Bool
  cursor : Option ℤ
  message : Option String
  error : Option String
  deriving DecidableEq

/-- Result record of `check_new_messages`. -/
structure NewMessagesResult where
  count : ℕ
  messages : List Message
  cursor : Option ℤ
  error : Option String
  deriving DecidableEq

/-- `start_watching` (tools.py lines 419–435): arm the cursor at the latest
message id; surface a store failure with an unset cursor. -/
def start_watching (store : Except String (List MsgRow)) : WatcherResult × Option ℤ :=
  match get_latest_message_id store with
  | .ok c => ({ watching := true, cursor := some c, message := some "Watching started",
                error := none }, some c)
  | .error e => ({ watching := false, cursor := none, message := none, error := some e }, none)

/-- `stop_watching` (tools.py lines 475–486): clear the cursor. -/
def stop_watching : WatcherResult × Option ℤ :=
  ({ watching := false, cursor := none, message := some "Watching stopped", error := none }, none)

/-- `check_new_messages` (tools.py lines 443–467).  Returns the result record
and the watcher cursor after the call.  The unset cursor is rejected before
any store access; a store failure is surfaced with the cursor kept; otherwise
the query runs with the hard-wired default `limit=50` and the cursor advances
to the maximum returned id (unchanged when nothing is returned). -/
def check_new_messages (epoch : ℚ) (store : Except String (List MsgRow))
    (cursor : Option ℤ) : NewMessagesResult × Option ℤ :=
  match cursor with
  | none =>
    ({ count := 0, messages := [], cursor := none,
       error := some "Not watching. Call start_watching first." }, none)
  | some c =>
    match store with
    | .error e => ({ count := 0, messages := [], cursor := some c, error := some e }, some c)
    | .ok rows =>
      let msgs := get_messages_since_id epoch rows c 50
      let newCursor := if msgs.isEmpty then some c else some (maxIdOf msgs)
      ({ count := msgs.length, messages := msgs, cursor := newCursor, error := none }, newCursor)

lemma le_maxIdOf : ∀ (l : List Message), ∀ m ∈ l, m.id ≤ maxIdOf l := by
  intro l
  induction l with
  | nil => intro m hm; exact absurd hm (List.not_mem_nil m)
  | cons a rest ih =>
    intro m hm
    cases rest with
    | nil =>
      have hma : m = a := by simpa using hm
      rw [hma]
      exact le_refl _
    | cons b rest2 =>
      rcases List.mem_cons.mp hm with h | h
      · rw [h]
        exact le_max_left _ _
      · exact le_trans (ih m h) (le_max_right _ _)

lemma maxIdOf_mem : ∀ (l : List Message), l ≠ [] → ∃ m ∈ l, m.id = maxIdOf l := by
  intro l
  induction l with
  | nil => intro h; exact absurd rfl h
  | cons a rest ih =>
    intro _
    cases rest with
    | nil => exact ⟨a, List.mem_singleton.mpr rfl, rfl⟩
    | cons b rest2 =>
      obtain ⟨m, hm, he⟩ := ih (List.cons_ne_nil b rest2)
      rcases le_total a.id (maxIdOf (b :: rest2)) with h | h
      · refine ⟨m, List.mem_cons_of_mem a hm, ?_⟩
        rw [he]
        exact (max_eq_right h).symm
      · refine ⟨a, List.mem_cons_self a _, ?_⟩
        exact (max_eq_left h).symm

/-- **C5.** A poll with the cursor unset (the initial state, and the state
`stop_watching` re-establishes) returns an empty list and the `NotWatching`
error, without touching the store: the result is one constant, independent of
the store value — even a failing store is never consulted. -/
theorem check_new_messages_not_watching (epoch : ℚ) (store : Except String (List MsgRow)) :
    check_new_messages epoch store none =
      ({ count := 0, messages := [], cursor := none,
         error := some "Not watching. Call start_watching first." }, none) ∧
    stop_watching.2 = none :=
  ⟨rfl, rfl⟩

/-- **C10.** A poll with an armed cursor whose store query fails returns the
error text, an empty message list, and the pre-call cursor value, and leaves
the watcher cursor unchanged. -/
theorem check_new_messages_store_error (epoch : ℚ) (e : String) (c : ℤ) :
    check_new_messages epoch (.error e) (some c) =
      ({ count := 0, messages := [], cursor := some c, error := some e }, some c) :=
  rfl

/-- **C4.** A poll with an armed cursor `c` over a healthy store returns
exactly the messages with id strictly greater than `c` (every returned message
satisfies it, and every qualifying row is returned whenever the query's
`LIMIT 50` does not truncate), in ascending id order and at most 50 of them;
the watcher cursor advances to the maximum id among the returned messages, and
stays at `c` with an empty result when nothing qualifies. -/
theorem check_new_messages_armed (epoch : ℚ) (rows : List MsgRow) (c : ℤ) :
    (∀ m ∈ (check_new_messages epoch (.ok rows) (some c)).1.messages, c < m.id) ∧
    List.Pairwise (fun a b : Message => a.id ≤ b.id)
      (check_new_messages epoch (.ok rows) (some c)).1.messages ∧
    (check_new_messages epoch (.ok rows) (some c)).1.messages.length ≤ 50 ∧
    (check_new_messages epoch (.ok rows) (some c)).1.count =
      (check_new_messages epoch (.ok rows) (some c)).1.messages.length ∧
    (∀ r ∈ rows, c < r.id →
      (rows.filter (fun x => decide (c < x.id))).length ≤ 50 →
      row_to_message epoch r ∈ (check_new_messages epoch (.ok rows) (some c)).1.messages) ∧
    ((check_new_messages epoch (.ok rows) (some c)).1.messages = [] →
      (check_new_messages epoch (.ok rows) (some c)).2 = some c ∧
      (check_new_messages epoch (.ok rows) (some c)).1.cursor = some c) ∧
    ((check_new_messages epoch (.ok rows) (some c)).1.messages ≠ [] →
      ∃ k, (check_new_messages epoch (.ok rows) (some c)).2 = some k ∧
        (check_new_messages epoch (.ok rows) (some c)).1.cursor = some k ∧
        (∃ m ∈ (check_new_messages epoch (.ok rows) (some c)).1.messages, m.id = k) ∧
        ∀ m ∈ (check_new_messages epoch (.ok rows) (some c)).1.messages, m.id ≤ k) := by
  have hmsgs : (check_new_messages epoch (.ok rows) (some c)).1.messages =
      get_messages_since_id epoch rows c 50 := rfl
  have hcur2 : (check_new_messages epoch (.ok rows) (some c)).2 =
      (if (get_messages_since_id epoch rows c 50).isEmpty then some c
        else some (maxIdOf (get_messages_since_id epoch rows c 50))) := rfl
  have hcur1 : (check_new_messages epoch (.ok rows) (some c)).1.cursor =
      (if (get_messages_since_id epoch rows c 50).isEmpty then some c
        else some (maxIdOf (get_messages_since_id epoch rows c 50))) := rfl
  refine ⟨?_, ?_, ?_, rfl, ?_, ?_, ?_⟩
  · intro m hm
    rw [hmsgs] at hm
    unfold get_messages_since_id at hm
    obtain ⟨r, hr, he⟩ := List.mem_map.mp hm
    have hr2 := List.take_subset 50 _ hr
    rw [List.mem_insertionSort] at hr2
    have hr3 := (List.mem_filter.mp hr2).2
    rw [← he]
    exact of_decide_eq_true hr3
  · rw [hmsgs]
    unfold get_messages_since_id
    have hsorted : List.Pairwise msgIdAsc
        ((rows.filter (fun m => decide (c < m.id))).insertionSort msgIdAsc) :=
      List.sorted_insertionSort msgIdAsc _
    have htake : List.Pairwise msgIdAsc
        (((rows.filter (fun m => decide (c < m.id))).insertionSort msgIdAsc).take 50) :=
      List.Pairwise.sublist (List.take_sublist _ _) hsorted
    exact List.pairwise_map.mpr (htake.imp (fun h => h))
  · rw [hmsgs]
    unfold get_messages_since_id
    rw [List.length_map, List.length_take]
    exact min_le_left _ _
  · intro r hr hid hcount
    rw [hmsgs]
    unfold get_messages_since_id
    have hrf : r ∈ rows.filter (fun x => decide (c < x.id)) :=
      List.mem_filter.mpr ⟨hr, decide_eq_true hid⟩
    have hlen : ((rows.filter (fun x => decide (c < x.id))).insertionSort msgIdAsc).length ≤ 50 := by
      rw [List.length_insertionSort]
      exact hcount
    rw [List.take_of_length_le hlen]
    exact List.mem_map.mpr ⟨r, (List.mem_insertionSort msgIdAsc).mpr hrf, rfl⟩
  · intro hempty
    rw [hmsgs] at hempty
    rw [hcur2, hcur1, hempty]
    exact ⟨rfl, rfl⟩
  · intro hne
    rw [hmsgs] at hne
    refine ⟨maxIdOf (get_messages_since_id epoch rows c 50), ?_, ?_, ?_, ?_⟩
    · rw [hcur2, if_neg (by simpa using hne)]
    · rw [hcur1, if_neg (by simpa using hne)]
    · rw [hmsgs]
      exact maxIdOf_mem _ hne
    · rw [hmsgs]
      exact le_maxIdOf _

/-- Concrete rows for the watcher witness (ids 5, 6 and 7). -/
def wRow (i : ℤ) : MsgRow :=
  { id := i, guid := "w", text := some "hi", date := i, is_from_me := false,
    is_read := false, is_sent := true, is_delivered := true, has_attachments := false,
    associated_message_guid := none, associated_message_type := none,
    sender := some "bob", chat_identifier := some "chat1", chat_name := none,
    group_id := none }

/-- **C4 witness.** The spec's example: cursor armed at 5, rows 6 and 7 newly
present — both are returned (via the completeness clause of
`check_new_messages_armed`, with its hypotheses discharged concretely) and the
cursor advances to 7. -/
theorem check_new_messages_armed_witness :
    row_to_message 0 (wRow 6) ∈
      (check_new_messages 0 (.ok [wRow 7, wRow 5, wRow 6]) (some 5)).1.messages ∧
    row_to_message 0 (wRow 7) ∈
      (check_new_messages 0 (.ok [wRow 7, wRow 5, wRow 6]) (some 5)).1.messages ∧
    (check_new_messages 0 (.ok [wRow 7, wRow 5, wRow 6]) (some 5)).2 = some 7 := by
  have h := check_new_messages_armed 0 [wRow 7, wRow 5, wRow 6] 5
  refine ⟨h.2.2.2.2.1 (wRow 6) (by decide) (by decide) (by decide),
    h.2.2.2.2.1 (wRow 7) (by decide) (by decide) (by decide), ?_⟩
  decide

/-! ## `list_chats` (db.py lines 230–279)

One row per chat with a correlated message count (`COUNT(*)` over
`chat_message_join`) and a correlated last-activity date (`MAX(m.date)` over
the joined messages, `NULL` when the join is empty), `ORDER BY
last_message_date DESC` — SQLite sorts `NULL` as smaller than every value, so
descending order puts `NULL`s last — then `LIMIT`, then dict conversion. -/

structure ChatRow where
  id : ℤ
  chat_identifier : Option String
  display_name : Option String
  group_id : Option String
  service_name : Option String
  deriving DecidableEq

/-- One row of the `list_chats` query (chat columns plus the two correlated
subquery columns). -/
structure ChatQueryRow where
  id : ℤ
  chat_identifier : Option String
  display_name : Option String
  group_id : Option String
  service_name : Option String
  message_count : ℕ
  last_message_date : Option ℤ
  deriving DecidableEq

/-- The chat dictionary returned by `list_chats`. -/
structure ChatDict where
  id : ℤ
  chat_identifier : Option String
  display_name : Option String
  is_group : Bool
  service : Option String
  message_count : ℕ
  last_message : Option ℚ
  deriving DecidableEq

/-- SQL `MAX` aggregate over the listed values: `NULL` on the empty set. -/
def listMaxInt : List ℤ → Option ℤ
  | [] => none
  | d :: ds =>
    match listMaxInt ds with
    | none => some d
    | some m => some (max d m)

/-- Dates of the messages joined to chat `c` through `chat_message_join`. -/
def joinedDates (msgs : List MsgRow) (cmj : List (ℤ × ℤ)) (c : ChatRow) : List ℤ :=
  (cmj.filter (fun j => decide (j.2 = c.id))).flatMap
    (fun j => (msgs.filter (fun m => decide (m.id = j.1))).map (fun m => m.date))

/-- The `SELECT` row for one chat: count of join rows, max joined date. -/
def chatQueryRow (msgs : List MsgRow) (cmj : List (ℤ × ℤ)) (c : ChatRow) : ChatQueryRow :=
  { id := c.id, chat_identifier := c.chat_identifier, display_name := c.display_name,
    group_id := c.group_id, service_name := c.service_name,
    message_count := (cmj.filter (fun j => decide (j.2 = c.id))).length,
    last_message_date := listMaxInt (joinedDates msgs cmj c) }

/-- `ORDER BY last_message_date DESC` comparison with SQLite's `NULL`-smallest
convention: `x` may precede `y` descending iff `y` is `NULL` or both are
values with `y ≤ x`. -/
def optDescLeB : Option ℤ → Option ℤ → Bool
  | none, none => true
  | none, some _ => false
  | some _, none => true
  | some u, some v => decide (v ≤ u)

lemma optDescLeB_total (x y : Option ℤ) : optDescLeB x y = true ∨ optDescLeB y x = true := by
  match x, y with
  | none, none => exact Or.inl rfl
  | none, some v => exact Or.inr rfl
  | some u, none => exact Or.inl rfl
  | some u, some v =>
    rcases le_total v u with h | h
    · exact Or.inl (decide_eq_true h)
    · exact Or.inr (decide_eq_true h)

lemma optDescLeB_trans {x y z : Option ℤ} (h1 : optDescLeB x y = true)
    (h2 : optDescLeB y z = true) : optDescLeB x z = true := by
  match x, y, z with
  | _, none, some w => exact absurd h2 (by simp [optDescLeB])
  | none, some v, _ => exact absurd h1 (by simp [optDescLeB])
  | none, none, none => rfl
  | some u, none, none => rfl
  | some u, some v, none => rfl
  | some u, some v, some w =>
    have hvu : v ≤ u := of_decide_eq_true h1
    have hwv : w ≤ v := of_decide_eq_true h2
    exact decide_eq_true (le_trans hwv hvu)

/-- Row order of the `list_chats` query. -/
def chatDateDesc (a b : ChatQueryRow) : Prop :=
  optDescLeB a.last_message_date b.last_message_date = true

instance : DecidableRel chatDateDesc :=
  fun a b => inferInstanceAs (Decidable (_ = true))

instance : IsTotal ChatQueryRow chatDateDesc := ⟨fun a b => optDescLeB_total _ _⟩

instance : IsTrans ChatQueryRow chatDateDesc := ⟨fun _ _ _ h1 h2 => optDescLeB_trans h1 h2⟩

/-- Dict conversion of one result row (db.py lines 268–279). -/
def chatRowToDict (epoch : ℚ) (r : ChatQueryRow) : ChatDict :=
  { id := r.id, chat_identifier := r.chat_identifier, display_name := r.display_name,
    is_group := pyStrTruthy r.group_id, service := r.service_name,
    message_count := r.message_count,
    last_message := mac_timestamp_to_iso epoch r.last_message_date }

/-- `IMessageDatabase.list_chats`. -/
def list_chats (epoch : ℚ) (chats : List ChatRow) (msgs : List MsgRow)
    (cmj : List (ℤ × ℤ)) (limit : ℕ) : List ChatDict :=
  (((chats.map (chatQueryRow msgs cmj)).insertionSort chatDateDesc).take limit).map
    (chatRowToDict epoch)

lemma chatDict_last_none_iff (epoch : ℚ) (r : ChatQueryRow) :
    (chatRowToDict epoch r).last_message = none ↔ r.last_message_date = none := by
  unfold chatRowToDict mac_timestamp_to_iso
  exact Option.map_eq_none'

/-- **C8.** In `list_chats`, a chat with no joined messages has a `NULL`
last-activity (its `MAX` aggregate is over an empty set, and the dict
conversion maps `NULL` to `None`), and in the returned ordering every chat
with a `None` last-activity comes after all chats with a value: whenever one
result row precedes another, a `None` on the earlier forces a `None` on the
later. -/
theorem list_chats_nulls_last (epoch : ℚ) (chats : List ChatRow) (msgs : List MsgRow)
    (cmj : List (ℤ × ℤ)) (limit : ℕ) :
    (∀ c : ChatRow, joinedDates msgs cmj c = [] →
      (chatRowToDict epoch (chatQueryRow msgs cmj c)).last_message = none) ∧
    List.Pairwise (fun a b : ChatDict => a.last_message = none → b.last_message = none)
      (list_chats epoch chats msgs cmj limit) := by
  constructor
  · intro c h
    rw [chatDict_last_none_iff]
    show listMaxInt (joinedDates msgs cmj c) = none
    rw [h]
    rfl
  · unfold list_chats
    have hsorted : List.Pairwise chatDateDesc
        ((chats.map (chatQueryRow msgs cmj)).insertionSort chatDateDesc) :=
      List.sorted_insertionSort chatDateDesc _
    have htake : List.Pairwise chatDateDesc
        (((chats.map (chatQueryRow msgs cmj)).insertionSort chatDateDesc).take limit) :=
      List.Pairwise.sublist (List.take_sublist _ _) hsorted
    refine List.pairwise_map.mpr (htake.imp ?_)
    intro a b h hna
    rw [chatDict_last_none_iff] at hna ⊢
    unfold chatDateDesc at h
    rw [hna] at h
    match hb : b.last_message_date with
    | none => rfl
    | some v =>
      rw [hb] at h
      exact absurd h (by simp [optDescLeB])

/-- A chat row with no messages joined to it. -/
def cEmpty : ChatRow :=
  { id := 9, chat_identifier := some "chat9", display_name := none, group_id := none,
    service_name := some "iMessage" }

/-- **C8 witness.** `list_chats_nulls_last` applied to a concrete store in
which chat `cEmpty` has no joined messages: its last-activity is `None`. -/
theorem list_chats_nulls_last_witness :
    (chatRowToDict 0 (chatQueryRow [] [] cEmpty)).last_message = none :=
  (list_chats_nulls_last 0 [cEmpty] [] [] 50).1 cEmpty rfl

/-! ## Automation layer (sender.py) and `lookup_contact` (tools.py lines 504–518)

One `osascript` invocation is modelled by its outcome: completion with exit
code / stdout / stderr, a `subprocess.TimeoutExpired`, or any other launch
failure with its exception text. -/

inductive ProcOutcome where
  | completed (exitCode : ℤ) (stdout : String) (stderr : String)
  | timeout
  | launchFailure (msg : String)
  deriving DecidableEq

/-- Success/error content of the dicts returned by the senders. -/
structure SendOutcome where
  success : Bool
  error : Option String
  deriving DecidableEq

/-- `send_message` (sender.py lines 19–61): non-zero exit yields
`stderr.strip() or "Unknown AppleScript error"`; timeout and launch failures
are caught into fixed / exception messages. -/
def send_message (proc : ProcOutcome) : SendOutcome :=
  match proc with
  | .completed code _ stderr =>
    if code ≠ 0 then
      { success := false
        error := some (if stderr.trim = "" then "Unknown AppleScript error" else stderr.trim) }
    else { success := true, error := none }
  | .timeout => { success := false, error := some "AppleScript execution timed out" }
  | .launchFailure e => { success := false, error := some e }

/-- `send_to_chat` (sender.py lines 64–105): identical error handling. -/
def send_to_chat (proc : ProcOutcome) : SendOutcome :=
  match proc with
  | .completed code _ stderr =>
    if code ≠ 0 then
      { success := false
        error := some (if stderr.trim = "" then "Unknown AppleScript error" else stderr.trim) }
    else { success := true, error := none }
  | .timeout => { success := false, error := some "AppleScript execution timed out" }
  | .launchFailure e => { success := false, error := some e }

/-- `send_attachment` (sender.py lines 141–192): generic message
`"AppleScript error"`, timeout message `"Timeout"`. -/
def send_attachment (proc : ProcOutcome) : SendOutcome :=
  match proc with
  | .completed code _ stderr =>
    if code ≠ 0 then
      { success := false
        error := some (if stderr.trim = "" then "AppleScript error" else stderr.trim) }
    else { success := true, error := none }
  | .timeout => { success := false, error := some "Timeout" }
  | .launchFailure e => { success := false, error := some e }

/-- `send_attachment_to_chat` (sender.py lines 257–306): same handling as
`send_attachment`. -/
def send_attachment_to_chat (proc : ProcOutcome) : SendOutcome :=
  match proc with
  | .completed code _ stderr =>
    if code ≠ 0 then
      { success := false
        error := some (if stderr.trim = "" then "AppleScript error" else stderr.trim) }
    else { success := true, error := none }
  | .timeout => { success := false, error := some "Timeout" }
  | .launchFailure e => { success := false, error := some e }

structure Contact where
  name : String
  phones : List String
  emails : List String
  deriving DecidableEq

/-- Stdout parser of `search_contacts` (sender.py lines 239–251): lines split
on newline, fields on tab, sub-fields on pipe; blank sub-fields dropped;
records with a blank name dropped. -/
def parseContacts (stdout : String) : List Contact :=
  (stdout.trim.splitOn "\n").filterMap (fun line =>
    if line.trim = "" then none
    else
      match line.splitOn "\t" with
      | n :: ph :: em :: _ =>
        let name := n.trim
        if name = "" then none
        else some
          { name := name
            phones := ((ph.splitOn "|").map String.trim).filter (fun p => decide (p ≠ ""))
            emails := ((em.splitOn "|").map String.trim).filter (fun e => decide (e ≠ "")) }
      | _ => none)

/-- `search_contacts` (sender.py lines 195–254): a non-zero exit returns the
empty list (line 236–237), and the blanket `except` returns the empty list on
timeout or launch failure — no error is reported in any failure mode. -/
def search_contacts (proc : ProcOutcome) : List Contact :=
  match proc with
  | .completed code stdout _ => if code ≠ 0 then [] else parseContacts stdout
  | .timeout => []
  | .launchFailure _ => []

/-- Result record of the `lookup_contact` tool. -/
structure ContactsResult where
  query : String
  count : ℕ
  contacts : List Contact
  error : Option String
  deriving DecidableEq

/-- `lookup_contact` (tools.py lines 504–518): wraps `search_contacts`, which
never raises, so the `except` branch is dead and `error` is always `None`. -/
def lookup_contact (name : String) (proc : ProcOutcome) : ContactsResult :=
  let contacts := search_contacts proc
  { query := name, count := contacts.length, contacts := contacts, error := none }

/-- **C7 counterexample.** A non-zero exit of the contact-search automation
process (exit code 1, stderr `"boom"`) is *not* surfaced: `lookup_contact`
returns an empty contact list with `error = none`, refuting the claim that
every failure mode of every upward tool operation populates the error field
with a non-empty message. -/
theorem lookup_contact_swallows_process_error :
    lookup_contact "Alice" (.completed 1 "" "boom") =
      { query := "Alice", count := 0, contacts := [], error := none } :=
  rfl

lemma trim_or_default_ne (stderr g : String) (hg : g ≠ "") :
    (if stderr.trim = "" then g else stderr.trim) ≠ "" := by
  by_cases h : stderr.trim = ""
  · rw [if_pos h]
    exact hg
  · rw [if_neg h]
    exact h

/-! ### Remaining tool wrappers (tools.py)

The read and watcher tools all share the shape
`try: <db call> → result(payload, error=None)  except e: result(empty, error=str(e))`;
each is modelled with its store tables behind `Except String`. -/

/-- Result record of the `list_chats` tool. -/
structure ChatsResult where
  count : ℕ
  chats : List ChatDict
  error : Option String
  deriving DecidableEq

/-- The `list_chats` tool (tools.py lines 171–186). -/
def list_chats_tool (epoch : ℚ)
    (store : Except String (List ChatRow × List MsgRow × List (ℤ × ℤ)))
    (limit : ℕ) : ChatsResult :=
  match store with
  | .error e => { count := 0, chats := [], error := some e }
  | .ok t =>
    let cs := list_chats epoch t.1 t.2.1 t.2.2 limit
    { count := cs.length, chats := cs, error := none }

/-- The `get_unread_messages` tool (tools.py lines 283–298): a plain
`get_messages` call with `unread_only=True`. -/
def get_unread_messages_tool (epoch : ℚ) (store : Except String (List MsgRow))
    (limit : ℕ) : MessagesResult :=
  match store with
  | .error e => { count := 0, messages := [], error := some e }
  | .ok rows =>
    let msgs := get_messages epoch rows limit none none none true
    { count := msgs.length, messages := msgs, error := none }

/-- A `handle` table row. -/
structure HandleRow where
  rowid : ℤ
  id : Option String
  service : Option String
  deriving DecidableEq

/-- One participant dict of `get_chat_participants` (db.py line 304). -/
structure Participant where
  handle : Option String
  service : Option String
  deriving DecidableEq

/-- `SELECT DISTINCT h.id, h.service FROM handle h JOIN chat_handle_join chj
ON h.rowid = chj.handle_id JOIN chat c ON chj.chat_id = c.rowid WHERE
c.chat_identifier = ?` (db.py lines 281–304); `chj` pairs are
`(handle_id, chat_id)`. -/
def participants_query (handles : List HandleRow) (chj : List (ℤ × ℤ))
    (chats : List ChatRow) (cid : String) : List Participant :=
  (handles.flatMap (fun h =>
    (chj.filter (fun j => decide (j.1 = h.rowid))).flatMap (fun j =>
      (chats.filter (fun c => decide (c.id = j.2) && decide (c.chat_identifier = some cid))).map
        (fun _ => ⟨h.id, h.service⟩)))).dedup

/-- Result dict of the `get_chat_participants` tool. -/
structure ParticipantsResult where
  chat_id : String
  participants : List Participant
  error : Option String
  deriving DecidableEq

/-- The `get_chat_participants` tool (tools.py lines 194–209). -/
def get_chat_participants_tool (cid : String)
    (store : Except String (List HandleRow × List (ℤ × ℤ) × List ChatRow)) :
    ParticipantsResult :=
  match store with
  | .error e => { chat_id := cid, participants := [], error := some e }
  | .ok t =>
    { chat_id := cid, participants := participants_query t.1 t.2.1 t.2.2 cid, error := none }

/-- An `attachment` table row. -/
structure AttachmentRow where
  rowid : ℤ
  guid : String
  filename : Option String
  mime_type : Option String
  transfer_name : Option String
  total_bytes : ℤ
  deriving DecidableEq

/-- One attachment dict of `get_attachments` (db.py lines 218–228). -/
structure AttachmentDict where
  id : ℤ
  guid : String
  filename : Option String
  mime_type : Option String
  transfer_name : Option String
  size_bytes : ℤ
  deriving DecidableEq

/-- `SELECT a.* FROM attachment a JOIN message_attachment_join maj ON
a.rowid = maj.attachment_id WHERE maj.message_id = ?` (db.py lines 190–228);
`maj` pairs are `(message_id, attachment_id)`. -/
def attachments_query (atts : List AttachmentRow) (maj : List (ℤ × ℤ))
    (mid : ℤ) : List AttachmentDict :=
  atts.flatMap (fun a =>
    (maj.filter (fun j => decide (j.1 = mid) && decide (j.2 = a.rowid))).map
      (fun _ => ⟨a.rowid, a.guid, a.filename, a.mime_type, a.transfer_name, a.total_bytes⟩))

/-- Result record of the `get_attachments` tool. -/
structure AttachmentResult where
  message_id : ℤ
  count : ℕ
  attachments : List AttachmentDict
  error : Option String
  deriving DecidableEq

/-- The `get_attachments` tool (tools.py lines 316–331). -/
def get_attachments_tool (mid : ℤ)
    (store : Except String (List AttachmentRow × List (ℤ × ℤ))) : AttachmentResult :=
  match store with
  | .error e => { message_id := mid, count := 0, attachments := [], error := some e }
  | .ok t =>
    let l := attachments_query t.1 t.2 mid
    { message_id := mid, count := l.length, attachments := l, error := none }

/-- `check_messages_app`'s `messages_running` value (sender.py lines 108–138):
stdout of the liveness script, trimmed and lower-cased, compared to `"true"`
(the exit code is not consulted); any exception yields `False`.  Its `error`
field is never consumed by `check_status`. -/
def check_messages_app (proc : ProcOutcome) : Bool :=
  match proc with
  | .completed _ stdout _ => stdout.trim.toLower == "true"
  | .timeout => false
  | .launchFailure _ => false

/-- Result record of the `check_status` tool. -/
structure StatusResult where
  platform : String
  messages_app_running : Bool
  database_accessible : Bool
  ready : Bool
  error : Option String
  deriving DecidableEq

/-- The `check_status` tool (tools.py lines 98–124): probes the connection
(`Except String Unit`), surfacing its failure in `error`. -/
def check_status (platform : String) (proc : ProcOutcome)
    (store : Except String Unit) : StatusResult :=
  let running := check_messages_app proc
  match store with
  | .ok _ =>
    { platform := platform, messages_app_running := running,
      database_accessible := true, ready := running, error := none }
  | .error e =>
    { platform := platform, messages_app_running := running,
      database_accessible := false, ready := false, error := some e }

/-- **C7 (amended).** Every operation of the upward tool surface converts
every failure into a populated error field of its result record — a store
failure of the read, status and watcher operations is surfaced as the
exception's text, and for the send operations a non-zero exit of the
automation process yields `success = false` with a non-empty message built
from stripped stderr or the operation's generic message, a timeout yields the
operation's fixed timeout message, and a launch failure yields the exception's
text — **except contact search**: `lookup_contact` returns an empty contact
list with `error = none` in every process failure mode (non-zero exit,
timeout, launch failure), silently swallowing the failure. -/
theorem automation_error_surfacing (code : ℤ) (stdout stderr e q plat cid : String)
    (mid c : ℤ) (limit : ℕ) (epoch : ℚ) (store : Except String (List MsgRow))
    (chat_id : Option String) (since : Option ℚ) (search : Option String)
    (chronological : Bool) (proc : ProcOutcome) :
    (code ≠ 0 →
      ((send_message (.completed code stdout stderr)).success = false ∧
        ∃ m, (send_message (.completed code stdout stderr)).error = some m ∧ m ≠ "") ∧
      ((send_to_chat (.completed code stdout stderr)).success = false ∧
        ∃ m, (send_to_chat (.completed code stdout stderr)).error = some m ∧ m ≠ "") ∧
      ((send_attachment (.completed code stdout stderr)).success = false ∧
        ∃ m, (send_attachment (.completed code stdout stderr)).error = some m ∧ m ≠ "") ∧
      ((send_attachment_to_chat (.completed code stdout stderr)).success = false ∧
        ∃ m, (send_attachment_to_chat (.completed code stdout stderr)).error = some m ∧
          m ≠ "")) ∧
    ((send_message .timeout).success = false ∧
      (send_message .timeout).error = some "AppleScript execution timed out" ∧
      (send_to_chat .timeout).error = some "AppleScript execution timed out" ∧
      (send_attachment .timeout).error = some "Timeout" ∧
      (send_attachment_to_chat .timeout).error = some "Timeout") ∧
    ((send_message (.launchFailure e)).success = false ∧
      (send_message (.launchFailure e)).error = some e ∧
      (send_to_chat (.launchFailure e)).error = some e ∧
      (send_attachment (.launchFailure e)).error = some e ∧
      (send_attachment_to_chat (.launchFailure e)).error = some e) ∧
    ((read_messages epoch store limit chat_id since search chronological).error ≠ none ∧
      get_unread_messages_tool epoch (.error e) limit =
        { count := 0, messages := [], error := some e } ∧
      list_chats_tool epoch (.error e) limit = { count := 0, chats := [], error := some e } ∧
      get_chat_participants_tool cid (.error e) =
        { chat_id := cid, participants := [], error := some e } ∧
      get_attachments_tool mid (.error e) =
        { message_id := mid, count := 0, attachments := [], error := some e } ∧
      (check_status plat proc (.error e)).error = some e ∧
      (check_status plat proc (.error e)).ready = false ∧
      (start_watching (.error e)).1.error = some e ∧
      (start_watching (.error e)).1.watching = false ∧
      (check_new_messages epoch (.error e) (some c)).1.error = some e) ∧
    ((code ≠ 0 → lookup_contact q (.completed code stdout stderr) =
        { query := q, count := 0, contacts := [], error := none }) ∧
      lookup_contact q .timeout = { query := q, count := 0, contacts := [], error := none } ∧
      lookup_contact q (.launchFailure e) =
        { query := q, count := 0, contacts := [], error := none }) := by
  refine ⟨?_, ⟨rfl, rfl, rfl, rfl, rfl⟩, ⟨rfl, rfl, rfl, rfl, rfl⟩,
    ⟨Option.some_ne_none _, rfl, rfl, rfl, rfl, rfl, rfl, rfl, rfl, rfl⟩, ?_, rfl, rfl⟩
  · intro hc
    refine ⟨?_, ?_, ?_, ?_⟩
    · simp only [send_message]
      rw [if_pos hc]
      exact ⟨rfl, _, rfl, trim_or_default_ne stderr _ (by decide)⟩
    · simp only [send_to_chat]
      rw [if_pos hc]
      exact ⟨rfl, _, rfl, trim_or_default_ne stderr _ (by decide)⟩
    · simp only [send_attachment]
      rw [if_pos hc]
      exact ⟨rfl, _, rfl, trim_or_default_ne stderr _ (by decide)⟩
    · simp only [send_attachment_to_chat]
      rw [if_pos hc]
      exact ⟨rfl, _, rfl, trim_or_default_ne stderr _ (by decide)⟩
  · intro hc
    simp only [lookup_contact, search_contacts]
    rw [if_pos hc]
    rfl

/-- **C7 witness.** `automation_error_surfacing` at exit code 1 (with concrete
values for every other argument): the send fails with `success = false` and
the contact lookup returns the silent empty result. -/
theorem automation_error_surfacing_witness :
    (send_message (.completed 1 "out" "boom")).success = false ∧
    lookup_contact "Alice" (.completed 1 "out" "boom") =
      { query := "Alice", count := 0, contacts := [], error := none } := by
  have h := automation_error_surfacing 1 "out" "boom" "err" "Alice" "Darwin" "chat1"
    3 5 50 0 (.ok []) none none none false .timeout
  exact ⟨(h.1 (by decide)).1.1, h.2.2.2.2.1 (by decide)⟩

end IMessage
